import Mathlib

/-!
Verification of the Contact Form Controller of the clad-website repository
(src/src/components/ContactForm.tsx).

Field values are modelled as `List Char` (JavaScript strings, one entry per
code unit).  User-facing message strings are Lean `String` literals copied
verbatim from the source.  Timestamps (`Date.now()`) are modelled as `Int`
milliseconds.  The asynchronous `handleSubmit` function is split at its single
`await fetch(...)` point into a synchronous start phase (`handleSubmitStart`)
and a continuation (`submitComplete`) that receives the outcome of the fetch.
-/

namespace CladForm

/-- JavaScript string falsiness / `String.prototype.trim`: strip leading and
trailing whitespace.  Source: the `.trim()` calls throughout ContactForm. -/
def jsTrim (cs : List Char) : List Char :=
  ((cs.dropWhile Char.isWhitespace).reverse.dropWhile Char.isWhitespace).reverse

/-- A character admitted by the regex character class `[^\s@]`:
neither whitespace nor the at sign. -/
def okChar (c : Char) : Bool :=
  !c.isWhitespace && c != '@'

/-- Matching of the email regex `^[^\s@]+@[^\s@]+\.[^\s@]{2,}$` (anchored on
both sides).  A string matches iff it decomposes as `l ++ [at] ++ m ++ [dot] ++ t`
with `l` and `m` nonempty, `t` of length at least 2, and every character of
`l`, `m`, `t` in the class `[^\s@]`.  Equivalently: there are positions
`i < j` holding the literal `@` and `.` with `1 ≤ i`, `i + 1 < j`,
`j + 3 ≤ length`, and every other position holding a `[^\s@]` character. -/
def emailRegexMatch (cs : List Char) : Bool :=
  (List.range cs.length).any fun i =>
    (List.range cs.length).any fun j =>
      decide (1 ≤ i) && decide (i + 1 < j) && decide (j + 3 ≤ cs.length) &&
      (cs.getD i ' ' == '@') && (cs.getD j ' ' == '.') &&
      ((List.range cs.length).all fun k =>
        (k == i) || (k == j) || okChar (cs.getD k ' '))

/-- Source `validateEmail`: `emailRegex.test(email)`. -/
def validateEmail (email : List Char) : Bool :=
  emailRegexMatch email

-- Validation constants (source `VALIDATION_RULES`).

def MIN_NAME_LENGTH : Nat := 2
def MIN_ORGANIZATION_LENGTH : Nat := 2
def MIN_MESSAGE_LENGTH : Nat := 10
def RATE_LIMIT_COOLDOWN_MS : Int := 3000

/-- The five draft fields (source: the five `createSignal("")` field values). -/
structure FormValues where
  name : List Char
  email : List Char
  organization : List Char
  role : List Char
  message : List Char
deriving DecidableEq, Repr

/-- Source `FieldErrors`: at most one error message per validated field.
The `role` field has no entry — it can never fail validation. -/
structure FieldErrors where
  name : Option String
  email : Option String
  organization : Option String
  message : Option String
deriving DecidableEq, Repr

/-- The `name` branch of the `errors` memo. -/
def nameError (v : List Char) : Option String :=
  if (jsTrim v).isEmpty then some "Name is required"
  else if (jsTrim v).length < MIN_NAME_LENGTH then
    some "Name must be at least 2 characters"
  else none

/-- The `email` branch of the `errors` memo. -/
def emailError (v : List Char) : Option String :=
  if (jsTrim v).isEmpty then some "Email is required"
  else if !validateEmail (jsTrim v) then
    some "Please enter a valid email address"
  else none

/-- The `organization` branch of the `errors` memo. -/
def organizationError (v : List Char) : Option String :=
  if !(jsTrim v).isEmpty && (jsTrim v).length < MIN_ORGANIZATION_LENGTH then
    some "Organization must be at least 2 characters"
  else none

/-- The `message` branch of the `errors` memo. -/
def messageError (v : List Char) : Option String :=
  if (jsTrim v).isEmpty then some "Message is required"
  else if (jsTrim v).length < MIN_MESSAGE_LENGTH then
    some "Message must be at least 10 characters"
  else none

/-- Source `errors` memo: recompute all field errors from current values. -/
def errors (v : FormValues) : FieldErrors :=
  { name := nameError v.name
    email := emailError v.email
    organization := organizationError v.organization
    message := messageError v.message }

/-- Source `isValid` memo: `Object.keys(errors()).length === 0`, i.e. no field
has an error entry. -/
def isValid (v : FormValues) : Bool :=
  (errors v).name.isNone && (errors v).email.isNone &&
  (errors v).organization.isNone && (errors v).message.isNone

/-- Source `FormStatus`: `"idle" | "submitting" | "success" | "error"`. -/
inductive FormStatus where
  | idle
  | submitting
  | success
  | error
deriving DecidableEq, Repr

/-- The validated fields, i.e. the keys of `FieldErrors` (the fields that carry
a touched flag and can display an inline error; `role` is not among them:
its `<select>` has no blur handler and no error display). -/
inductive ErrField where
  | name
  | email
  | organization
  | message
deriving DecidableEq, Repr

/-- The per-field touched flags (source `touched` signal; the submit handler
replaces it by `{name, email, organization, message: true}`, blur handlers
merge a single `true` entry). -/
structure Touched where
  name : Bool
  email : Bool
  organization : Bool
  message : Bool
deriving DecidableEq, Repr

def noneTouched : Touched :=
  { name := false, email := false, organization := false, message := false }

def allTouched : Touched :=
  { name := true, email := true, organization := true, message := true }

def getTouched (t : Touched) : ErrField → Bool
  | .name => t.name
  | .email => t.email
  | .organization => t.organization
  | .message => t.message

/-- Source `markTouched`: merge `{[field]: true}` into the touched record. -/
def markTouched (t : Touched) : ErrField → Touched
  | .name => { t with name := true }
  | .email => { t with email := true }
  | .organization => { t with organization := true }
  | .message => { t with message := true }

/-- Look up the error of one validated field from current values. -/
def fieldError (v : FormValues) : ErrField → Option String
  | .name => nameError v.name
  | .email => emailError v.email
  | .organization => organizationError v.organization
  | .message => messageError v.message

/-- The whole reactive state of the controller: the four status/metadata
signals plus the five field-value signals. -/
structure FormState where
  status : FormStatus
  errorMessage : String
  touched : Touched
  lastSubmitTime : Int
  values : FormValues
deriving DecidableEq, Repr

/-- Source `showError`: `touched()[field] ? errors()[field] : undefined`. -/
def showError (s : FormState) (f : ErrField) : Option String :=
  if getTouched s.touched f then fieldError s.values f else none

/-- The JSON body the controller serialises for the POST
(`JSON.stringify({name, email, organization, role, message})`). -/
structure RequestBody where
  name : List Char
  email : List Char
  organization : List Char
  role : List Char
  message : List Char
deriving DecidableEq, Repr

/-- The single network request `fetch(formspreeEndpoint, {...})` may issue. -/
structure Request where
  url : String
  method : String
  contentType : String
  acceptHeader : String
  body : RequestBody
deriving DecidableEq, Repr

/-- One entry of the `errors` array of a Formspree error body. -/
structure ErrorItem where
  message : String
deriving DecidableEq, Repr

/-- Source `FormspreeErrorResponse`: `{ errors?: Array<{ message: string }> }`. -/
structure FormspreeErrorResponse where
  errors : Option (List ErrorItem)
deriving DecidableEq, Repr

/-- The possible outcomes of the awaited `fetch`: the promise rejects
(transport failure), or a response arrives with `ok = (status in 2xx)` and,
for the error path, the result of `response.json()` (`none` when the body is
not parseable JSON, in which case `await response.json()` throws). -/
inductive FetchOutcome where
  | networkFailure
  | response (ok : Bool) (json : Option FormspreeErrorResponse)
deriving DecidableEq, Repr

def genericErrorMsg : String := "Something went wrong. Please try again."

def networkErrorMsg : String :=
  "Network error. Please check your connection and try again."

def configErrorMsg : String := "Form configuration error. Please contact support."

def rateLimitMsg (k : Int) : String :=
  "Please wait " ++ toString k ++ " seconds before submitting again."

/-- Source `data?.errors?.[0]?.message || "Something went wrong. Please try
again."`: the first message of the structured body when the optional chain
produces it and it is truthy (a nonempty string), else the generic fallback. -/
def extractErrorMessage (data : FormspreeErrorResponse) : String :=
  match data.errors with
  | some (m :: _) => if m.message = "" then genericErrorMsg else m.message
  | _ => genericErrorMsg

def emptyValues : FormValues :=
  { name := [], email := [], organization := [], role := [], message := [] }

/-- The synchronous prefix of `handleSubmit` (lines 87-134), up to and
including the decision whether to issue the fetch: mark every validated field
touched; bail out if invalid; rate-limit against `lastSubmitTime`; enter
`submitting`, clear the banner, record the attempt time; fail on a missing
endpoint; otherwise issue exactly one POST request built from the trimmed
values (role untrimmed).  Returns the state after this prefix together with
the request issued, if any. -/
def handleSubmitStart (s : FormState) (now : Int) (endpoint : Option String) :
    FormState × Option Request :=
  let s1 := { s with touched := allTouched }
  if !isValid s1.values then (s1, none)
  else
    let timeSinceLastSubmit := now - s1.lastSubmitTime
    if timeSinceLastSubmit < RATE_LIMIT_COOLDOWN_MS then
      let remainingSeconds :=
        (RATE_LIMIT_COOLDOWN_MS - timeSinceLastSubmit + 999) / 1000
      ({ s1 with errorMessage := rateLimitMsg remainingSeconds
                 status := FormStatus.error }, none)
    else
      let s2 := { s1 with status := FormStatus.submitting
                          errorMessage := ""
                          lastSubmitTime := now }
      match endpoint with
      | none =>
          ({ s2 with errorMessage := configErrorMsg
                     status := FormStatus.error }, none)
      | some url =>
          (s2,
           some { url := url
                  method := "POST"
                  contentType := "application/json"
                  acceptHeader := "application/json"
                  body := { name := jsTrim s2.values.name
                            email := jsTrim s2.values.email
                            organization := jsTrim s2.values.organization
                            role := s2.values.role
                            message := jsTrim s2.values.message } })

/-- The continuation of `handleSubmit` after `await fetch` (lines 136-158):
on `response.ok`, enter `success` and reset the draft and touched set; on a
non-ok response, show the extracted body message (the `await response.json()`
throw on an unparseable body lands in the same `catch` as a transport
failure, which shows the generic network message); always enter `error`
otherwise. -/
def submitComplete (s : FormState) (o : FetchOutcome) : FormState :=
  match o with
  | FetchOutcome.networkFailure =>
      { s with errorMessage := networkErrorMsg, status := FormStatus.error }
  | FetchOutcome.response ok json =>
      if ok then
        { s with status := FormStatus.success
                 values := emptyValues
                 touched := noneTouched }
      else
        match json with
        | some data =>
            { s with errorMessage := extractErrorMessage data
                     status := FormStatus.error }
        | none =>
            { s with errorMessage := networkErrorMsg
                     status := FormStatus.error }

/-- All draft fields, including `role`. -/
inductive Field where
  | name
  | email
  | organization
  | role
  | message
deriving DecidableEq, Repr

def setFieldValue (v : FormValues) : Field → List Char → FormValues
  | Field.name, x => { v with name := x }
  | Field.email, x => { v with email := x }
  | Field.organization, x => { v with organization := x }
  | Field.role, x => { v with role := x }
  | Field.message, x => { v with message := x }

/-- The UI events that can reach the controller. -/
inductive Event where
  | input (f : Field) (x : List Char)
  | blur (f : ErrField)
  | submit (now : Int) (endpoint : Option String)
  | fetchDone (o : FetchOutcome)
  | sendAnother
deriving DecidableEq, Repr

/-- `disabled={status() === "submitting"}` on every input, the select, the
textarea and the submit button. -/
def inputsDisabled (s : FormState) : Bool :=
  decide (s.status = FormStatus.submitting)

/-- One step of the controller, assembled from the JSX event wiring: the form
(with its inputs, blur handlers and submit button) is rendered only when the
status is not `success`, every control is disabled while `submitting`, the
"Send another message" button exists only in the `success` panel, and a fetch
outcome is delivered only to the `submitting` continuation of
`handleSubmit`.  Events whose control is absent or disabled leave the state
unchanged.  The second component is the network request issued by the step,
if any. -/
def step (s : FormState) (e : Event) : FormState × Option Request :=
  match e with
  | Event.input f x =>
      if s.status = FormStatus.success ∨ s.status = FormStatus.submitting then
        (s, none)
      else ({ s with values := setFieldValue s.values f x }, none)
  | Event.blur f =>
      if s.status = FormStatus.success ∨ s.status = FormStatus.submitting then
        (s, none)
      else ({ s with touched := markTouched s.touched f }, none)
  | Event.submit now endpoint =>
      if s.status = FormStatus.success ∨ s.status = FormStatus.submitting then
        (s, none)
      else handleSubmitStart s now endpoint
  | Event.fetchDone o =>
      if s.status = FormStatus.submitting then (submitComplete s o, none)
      else (s, none)
  | Event.sendAnother =>
      if s.status = FormStatus.success then
        ({ s with status := FormStatus.idle }, none)
      else (s, none)

/-- Trimming a string of only whitespace yields the empty string. -/
theorem jsTrim_of_all_whitespace (x : List Char)
    (h : x.all Char.isWhitespace = true) : jsTrim x = [] := by
  have hx : x.dropWhile Char.isWhitespace = [] := by
    rw [List.dropWhile_eq_nil_iff]
    intro c hc
    exact List.all_eq_true.mp h c hc
  unfold jsTrim
  rw [hx]
  rfl

theorem jsTrim_nil : jsTrim [] = [] := rfl

/-- Concrete valid draft used by the witnesses. -/
def validVals : FormValues :=
  { name := "Ada Lovelace".toList
    email := "ada@example.org".toList
    organization := []
    role := []
    message := "Interested in a pilot.".toList }

/-- Concrete idle state used by the witnesses. -/
def s0 : FormState :=
  { status := FormStatus.idle
    errorMessage := ""
    touched := noneTouched
    lastSubmitTime := 0
    values := validVals }

/-- Concrete submitting state used by the witnesses. -/
def sSub : FormState :=
  { status := FormStatus.submitting
    errorMessage := ""
    touched := allTouched
    lastSubmitTime := 5000
    values := validVals }

-- Helper unfoldings of `handleSubmitStart` for its three post-validation
-- branches.

theorem submitStart_rateLimited (s : FormState) (now : Int) (ep : Option String)
    (hv : isValid s.values = true)
    (h : now - s.lastSubmitTime < RATE_LIMIT_COOLDOWN_MS) :
    handleSubmitStart s now ep =
      ({ s with touched := allTouched
                errorMessage := rateLimitMsg
                  ((RATE_LIMIT_COOLDOWN_MS - (now - s.lastSubmitTime) + 999) / 1000)
                status := FormStatus.error }, none) := by
  simp [handleSubmitStart, hv, h]

theorem submitStart_noEndpoint (s : FormState) (now : Int)
    (hv : isValid s.values = true)
    (h : ¬ now - s.lastSubmitTime < RATE_LIMIT_COOLDOWN_MS) :
    handleSubmitStart s now none =
      ({ s with touched := allTouched
                status := FormStatus.error
                errorMessage := configErrorMsg
                lastSubmitTime := now }, none) := by
  simp [handleSubmitStart, hv, h]

theorem submitStart_withEndpoint (s : FormState) (now : Int) (url : String)
    (hv : isValid s.values = true)
    (h : ¬ now - s.lastSubmitTime < RATE_LIMIT_COOLDOWN_MS) :
    handleSubmitStart s now (some url) =
      ({ s with touched := allTouched
                status := FormStatus.submitting
                errorMessage := ""
                lastSubmitTime := now },
       some { url := url
              method := "POST"
              contentType := "application/json"
              acceptHeader := "application/json"
              body := { name := jsTrim s.values.name
                        email := jsTrim s.values.email
                        organization := jsTrim s.values.organization
                        role := s.values.role
                        message := jsTrim s.values.message } }) := by
  simp [handleSubmitStart, hv, h]

/-- `submitComplete` never writes `lastSubmitTime`. -/
theorem submitComplete_lastSubmitTime (s : FormState) (o : FetchOutcome) :
    (submitComplete s o).lastSubmitTime = s.lastSubmitTime := by
  cases o with
  | networkFailure => rfl
  | response ok json =>
      cases ok <;> cases json <;> rfl

/-- C1: on a submit whose fields all pass validation, the final state is
`submitting` only when at least `RATE_LIMIT_COOLDOWN_MS` (3000 ms) elapsed
since the stored last-submission timestamp; when the cooldown has not
elapsed, the state becomes `error` carrying the rate-limit message whose
second count is the ceiling of the remaining milliseconds over 1000, no
request is issued, and the timestamp is untouched; when the cooldown has
elapsed, the timestamp is set to `now` already in the start phase, and the
completion phase never changes it. -/
theorem c1_cooldown_gate (s : FormState) (now : Int) (ep : Option String)
    (hv : isValid s.values = true) :
    ((handleSubmitStart s now ep).1.status = FormStatus.submitting →
       RATE_LIMIT_COOLDOWN_MS ≤ now - s.lastSubmitTime) ∧
    (now - s.lastSubmitTime < RATE_LIMIT_COOLDOWN_MS →
       (handleSubmitStart s now ep).1.status = FormStatus.error ∧
       (handleSubmitStart s now ep).2 = none ∧
       (handleSubmitStart s now ep).1.lastSubmitTime = s.lastSubmitTime ∧
       ∃ k : Int,
         (handleSubmitStart s now ep).1.errorMessage = rateLimitMsg k ∧
         1000 * (k - 1) < RATE_LIMIT_COOLDOWN_MS - (now - s.lastSubmitTime) ∧
         RATE_LIMIT_COOLDOWN_MS - (now - s.lastSubmitTime) ≤ 1000 * k) ∧
    (RATE_LIMIT_COOLDOWN_MS ≤ now - s.lastSubmitTime →
       (handleSubmitStart s now ep).1.lastSubmitTime = now) ∧
    (∀ o, (submitComplete (handleSubmitStart s now ep).1 o).lastSubmitTime =
       (handleSubmitStart s now ep).1.lastSubmitTime) := by
  have hC : RATE_LIMIT_COOLDOWN_MS = 3000 := rfl
  refine ⟨?_, ?_, ?_, fun o => submitComplete_lastSubmitTime _ o⟩
  · intro hst
    by_contra hlt
    rw [not_le] at hlt
    rw [submitStart_rateLimited s now ep hv hlt] at hst
    simp at hst
  · intro hlt
    rw [submitStart_rateLimited s now ep hv hlt]
    refine ⟨rfl, rfl, rfl, (RATE_LIMIT_COOLDOWN_MS - (now - s.lastSubmitTime) + 999) / 1000,
      rfl, ?_, ?_⟩ <;>
    · rw [hC] at hlt ⊢
      omega
  · intro hge
    have h : ¬ now - s.lastSubmitTime < RATE_LIMIT_COOLDOWN_MS := not_lt.mpr hge
    cases ep with
    | none => rw [submitStart_noEndpoint s now hv h]
    | some url => rw [submitStart_withEndpoint s now url hv h]

/-- C1 witness: concrete valid state, second attempt 1000 ms after the first
is blocked with a 2-second wait message; an attempt 3000 ms after is not. -/
theorem c1_cooldown_gate_witness :
    isValid sSub.values = true ∧
    (1000 - sSub.lastSubmitTime < RATE_LIMIT_COOLDOWN_MS →
       (handleSubmitStart sSub 1000 (some "u")).1.status = FormStatus.error ∧
       (handleSubmitStart sSub 1000 (some "u")).2 = none ∧
       (handleSubmitStart sSub 1000 (some "u")).1.lastSubmitTime = sSub.lastSubmitTime ∧
       ∃ k : Int,
         (handleSubmitStart sSub 1000 (some "u")).1.errorMessage = rateLimitMsg k ∧
         1000 * (k - 1) < RATE_LIMIT_COOLDOWN_MS - (1000 - sSub.lastSubmitTime) ∧
         RATE_LIMIT_COOLDOWN_MS - (1000 - sSub.lastSubmitTime) ≤ 1000 * k) :=
  ⟨by decide, (c1_cooldown_gate sSub 1000 (some "u") (by decide)).2.1⟩

/-- C6: a submit that passes validation and the cooldown but has no configured
endpoint ends in `error` with the configuration-error message and issues no
network request. -/
theorem c6_missing_endpoint (s : FormState) (now : Int)
    (hv : isValid s.values = true)
    (hc : RATE_LIMIT_COOLDOWN_MS ≤ now - s.lastSubmitTime) :
    (handleSubmitStart s now none).1.status = FormStatus.error ∧
    (handleSubmitStart s now none).1.errorMessage = configErrorMsg ∧
    (handleSubmitStart s now none).2 = none := by
  rw [submitStart_noEndpoint s now hv (not_lt.mpr hc)]
  exact ⟨rfl, rfl, rfl⟩

/-- C6 witness. -/
theorem c6_missing_endpoint_witness :
    isValid s0.values = true ∧
    RATE_LIMIT_COOLDOWN_MS ≤ 3000 - s0.lastSubmitTime ∧
    (handleSubmitStart s0 3000 none).1.status = FormStatus.error ∧
    (handleSubmitStart s0 3000 none).1.errorMessage = configErrorMsg ∧
    (handleSubmitStart s0 3000 none).2 = none :=
  ⟨by decide, by decide, c6_missing_endpoint s0 3000 (by decide) (by decide)⟩

/-- C7: entering `submitting` with a configured endpoint issues exactly one
POST request to that endpoint with JSON content-type and accept headers and a
body of exactly the five fields, trimmed except `role`. -/
theorem c7_request_payload (s : FormState) (now : Int) (url : String)
    (hv : isValid s.values = true)
    (hc : RATE_LIMIT_COOLDOWN_MS ≤ now - s.lastSubmitTime) :
    handleSubmitStart s now (some url) =
      ({ s with touched := allTouched
                status := FormStatus.submitting
                errorMessage := ""
                lastSubmitTime := now },
       some { url := url
              method := "POST"
              contentType := "application/json"
              acceptHeader := "application/json"
              body := { name := jsTrim s.values.name
                        email := jsTrim s.values.email
                        organization := jsTrim s.values.organization
                        role := s.values.role
                        message := jsTrim s.values.message } }) :=
  submitStart_withEndpoint s now url hv (not_lt.mpr hc)

/-- C7 witness. -/
theorem c7_request_payload_witness :
    isValid s0.values = true ∧
    RATE_LIMIT_COOLDOWN_MS ≤ 3000 - s0.lastSubmitTime ∧
    handleSubmitStart s0 3000 (some "https://formspree.io/f/x") =
      ({ s0 with touched := allTouched
                 status := FormStatus.submitting
                 errorMessage := ""
                 lastSubmitTime := 3000 },
       some { url := "https://formspree.io/f/x"
              method := "POST"
              contentType := "application/json"
              acceptHeader := "application/json"
              body := { name := jsTrim s0.values.name
                        email := jsTrim s0.values.email
                        organization := jsTrim s0.values.organization
                        role := s0.values.role
                        message := jsTrim s0.values.message } }) :=
  ⟨by decide, by decide,
   c7_request_payload s0 3000 "https://formspree.io/f/x" (by decide) (by decide)⟩

/-- C10: a non-2xx response whose body fails to parse as JSON lands in the
`catch` handler, so the controller shows the generic network-error message,
enters `error`, and keeps all field values. -/
theorem c10_unparseable_body (s : FormState)
    (h : s.status = FormStatus.submitting) :
    (step s (Event.fetchDone (FetchOutcome.response false none))).1.status =
      FormStatus.error ∧
    (step s (Event.fetchDone (FetchOutcome.response false none))).1.errorMessage =
      networkErrorMsg ∧
    (step s (Event.fetchDone (FetchOutcome.response false none))).1.values =
      s.values := by
  simp [step, h, submitComplete]

/-- C10 witness. -/
theorem c10_unparseable_body_witness :
    sSub.status = FormStatus.submitting ∧
    (step sSub (Event.fetchDone (FetchOutcome.response false none))).1.status =
      FormStatus.error ∧
    (step sSub (Event.fetchDone (FetchOutcome.response false none))).1.errorMessage =
      networkErrorMsg ∧
    (step sSub (Event.fetchDone (FetchOutcome.response false none))).1.values =
      sSub.values :=
  ⟨rfl, c10_unparseable_body sSub rfl⟩

/-- C5: while `submitting`, every form control is disabled, input/blur/submit
and the send-another action leave the state unchanged and issue nothing, and
a fetch outcome — the only event that moves the machine — leads to `success`
or `error`. -/
theorem c5_submitting_locked (s : FormState)
    (h : s.status = FormStatus.submitting) :
    inputsDisabled s = true ∧
    (∀ f x, step s (Event.input f x) = (s, none)) ∧
    (∀ f, step s (Event.blur f) = (s, none)) ∧
    (∀ now ep, step s (Event.submit now ep) = (s, none)) ∧
    step s Event.sendAnother = (s, none) ∧
    (∀ o, (step s (Event.fetchDone o)).1.status = FormStatus.success ∨
          (step s (Event.fetchDone o)).1.status = FormStatus.error) := by
  refine ⟨by simp [inputsDisabled, h], ?_, ?_, ?_, ?_, ?_⟩
  · intro f x; simp [step, h]
  · intro f; simp [step, h]
  · intro now ep; simp [step, h]
  · simp [step, h]
  · intro o
    cases o with
    | networkFailure => right; simp [step, h, submitComplete]
    | response ok json =>
        cases ok with
        | true => left; simp [step, h, submitComplete]
        | false =>
            right
            cases json <;> simp [step, h, submitComplete]

/-- C5 witness. -/
theorem c5_submitting_locked_witness :
    sSub.status = FormStatus.submitting ∧
    step sSub (Event.input Field.name "x".toList) = (sSub, none) ∧
    step sSub (Event.blur ErrField.email) = (sSub, none) ∧
    step sSub (Event.submit 9000 (some "u")) = (sSub, none) ∧
    step sSub Event.sendAnother = (sSub, none) ∧
    ((step sSub (Event.fetchDone FetchOutcome.networkFailure)).1.status =
        FormStatus.success ∨
     (step sSub (Event.fetchDone FetchOutcome.networkFailure)).1.status =
        FormStatus.error) :=
  ⟨rfl,
   (c5_submitting_locked sSub rfl).2.1 Field.name "x".toList,
   (c5_submitting_locked sSub rfl).2.2.1 ErrField.email,
   (c5_submitting_locked sSub rfl).2.2.2.1 9000 (some "u"),
   (c5_submitting_locked sSub rfl).2.2.2.2.1,
   (c5_submitting_locked sSub rfl).2.2.2.2.2 FetchOutcome.networkFailure⟩

/-- C3: a 2xx response received while `submitting` clears all field values and
the touched set and enters `success`; the subsequent send-another action
returns to `idle` with the form still empty. -/
theorem c3_success_resets (s : FormState)
    (h : s.status = FormStatus.submitting)
    (j : Option FormspreeErrorResponse) :
    (step s (Event.fetchDone (FetchOutcome.response true j))).1.status =
      FormStatus.success ∧
    (step s (Event.fetchDone (FetchOutcome.response true j))).1.values =
      emptyValues ∧
    (step s (Event.fetchDone (FetchOutcome.response true j))).1.touched =
      noneTouched ∧
    (step (step s (Event.fetchDone (FetchOutcome.response true j))).1
        Event.sendAnother).1.status = FormStatus.idle ∧
    (step (step s (Event.fetchDone (FetchOutcome.response true j))).1
        Event.sendAnother).1.values = emptyValues := by
  simp [step, h, submitComplete]

/-- C3 witness. -/
theorem c3_success_resets_witness :
    sSub.status = FormStatus.submitting ∧
    (step sSub (Event.fetchDone (FetchOutcome.response true none))).1.status =
      FormStatus.success ∧
    (step sSub (Event.fetchDone (FetchOutcome.response true none))).1.values =
      emptyValues ∧
    (step sSub (Event.fetchDone (FetchOutcome.response true none))).1.touched =
      noneTouched ∧
    (step (step sSub (Event.fetchDone (FetchOutcome.response true none))).1
        Event.sendAnother).1.status = FormStatus.idle ∧
    (step (step sSub (Event.fetchDone (FetchOutcome.response true none))).1
        Event.sendAnother).1.values = emptyValues :=
  ⟨rfl, c3_success_resets sSub rfl none⟩

/-- Error body whose first entry carries the empty message. -/
def emptyMsgBody : FormspreeErrorResponse :=
  { errors := some [{ message := "" }] }

/-- C4 counterexample: a non-2xx response whose body is
`{errors:[{message:""}]}` has a present first message (the empty string), yet
the controller displays the generic fallback, because `||` treats the empty
string as falsy.  So the claim "displays the first message of the body when
present" fails at this input. -/
theorem c4_counterexample :
    emptyMsgBody.errors = some [{ message := "" }] ∧
    (step sSub (Event.fetchDone
        (FetchOutcome.response false (some emptyMsgBody)))).1.errorMessage =
      genericErrorMsg ∧
    genericErrorMsg ≠ "" := by decide

/-- C4 (amended): a non-2xx response received while `submitting` enters
`error` and preserves all field values; the displayed text is the first
message of the structured body when that message is present and nonempty,
and the generic fallback otherwise; a transport failure likewise enters
`error` with the generic network message and preserved values. -/
theorem c4_error_response (s : FormState)
    (h : s.status = FormStatus.submitting) :
    (∀ data : FormspreeErrorResponse,
       (step s (Event.fetchDone
           (FetchOutcome.response false (some data)))).1.status =
         FormStatus.error ∧
       (step s (Event.fetchDone
           (FetchOutcome.response false (some data)))).1.values = s.values ∧
       (∀ m rest, data.errors = some (m :: rest) → m.message ≠ "" →
          (step s (Event.fetchDone
              (FetchOutcome.response false (some data)))).1.errorMessage =
            m.message) ∧
       ((data.errors = none ∨ data.errors = some [] ∨
         (∃ m rest, data.errors = some (m :: rest) ∧ m.message = "")) →
          (step s (Event.fetchDone
              (FetchOutcome.response false (some data)))).1.errorMessage =
            genericErrorMsg)) ∧
    ((step s (Event.fetchDone FetchOutcome.networkFailure)).1.status =
       FormStatus.error ∧
     (step s (Event.fetchDone FetchOutcome.networkFailure)).1.values =
       s.values ∧
     (step s (Event.fetchDone FetchOutcome.networkFailure)).1.errorMessage =
       networkErrorMsg) := by
  constructor
  · intro data
    refine ⟨by simp [step, h, submitComplete], by simp [step, h, submitComplete],
      ?_, ?_⟩
    · intro m rest hm hne
      simp [step, h, submitComplete, extractErrorMessage, hm, hne]
    · rintro (hn | hn | ⟨m, rest, hm, hme⟩) <;>
        simp [step, h, submitComplete, extractErrorMessage, *]
  · exact ⟨by simp [step, h, submitComplete], by simp [step, h, submitComplete],
      by simp [step, h, submitComplete]⟩

/-- C4 witness: with the body `{errors:[{message:"Server error"}]}` the
displayed text is "Server error", the status `error`, the values intact. -/
theorem c4_error_response_witness :
    sSub.status = FormStatus.submitting ∧
    (step sSub (Event.fetchDone (FetchOutcome.response false
        (some { errors := some [{ message := "Server error" }] })))).1.status =
      FormStatus.error ∧
    (step sSub (Event.fetchDone (FetchOutcome.response false
        (some { errors := some [{ message := "Server error" }] })))).1.values =
      sSub.values ∧
    (step sSub (Event.fetchDone (FetchOutcome.response false
        (some { errors := some [{ message := "Server error" }] })))).1.errorMessage =
      "Server error" :=
  ⟨rfl,
   ((c4_error_response sSub rfl).1 { errors := some [{ message := "Server error" }] }).1,
   ((c4_error_response sSub rfl).1 { errors := some [{ message := "Server error" }] }).2.1,
   ((c4_error_response sSub rfl).1
       { errors := some [{ message := "Server error" }] }).2.2.1
     { message := "Server error" } [] rfl (by decide)⟩

/-- All four touched flags are set after `handleSubmitStart`. -/
theorem submitStart_touched (s : FormState) (now : Int) (ep : Option String) :
    (handleSubmitStart s now ep).1.touched = allTouched := by
  cases hv : isValid s.values with
  | false => simp [handleSubmitStart, hv]
  | true =>
      by_cases hlt : now - s.lastSubmitTime < RATE_LIMIT_COOLDOWN_MS
      · rw [submitStart_rateLimited s now ep hv hlt]
      · cases ep with
        | none => rw [submitStart_noEndpoint s now hv hlt]
        | some url => rw [submitStart_withEndpoint s now url hv hlt]

/-- C8: a field error is displayed only when the field is touched — an
untouched field never shows an error, whatever its value — and the submit
handler marks every validated field touched. -/
theorem c8_touched_gates_errors :
    (∀ (s : FormState) (f : ErrField),
       getTouched s.touched f = false → showError s f = none) ∧
    (∀ (s : FormState) (now : Int) (ep : Option String) (f : ErrField),
       getTouched ((handleSubmitStart s now ep).1.touched) f = true) := by
  constructor
  · intro s f hf
    simp [showError, hf]
  · intro s now ep f
    rw [submitStart_touched s now ep]
    cases f <;> rfl

/-- C8 witness: an untouched empty name shows no error in `s0`, and a submit
attempt marks the name touched. -/
theorem c8_touched_gates_errors_witness :
    getTouched s0.touched ErrField.name = false ∧
    showError s0 ErrField.name = none ∧
    getTouched ((handleSubmitStart s0 0 none).1.touched) ErrField.name = true :=
  ⟨rfl, c8_touched_gates_errors.1 s0 ErrField.name rfl,
   c8_touched_gates_errors.2 s0 0 none ErrField.name⟩

/-- C9: for each validated field, a whitespace-only value validates exactly
like the empty value (`role` has no validator at all, so it is trivially
unaffected). -/
theorem c9_whitespace_like_empty (x : List Char)
    (h : x.all Char.isWhitespace = true) :
    nameError x = nameError [] ∧
    emailError x = emailError [] ∧
    organizationError x = organizationError [] ∧
    messageError x = messageError [] := by
  have hx : jsTrim x = [] := jsTrim_of_all_whitespace x h
  refine ⟨?_, ?_, ?_, ?_⟩ <;>
    simp [nameError, emailError, organizationError, messageError, hx, jsTrim_nil]

/-- C9 witness: a space-tab string validates like the empty string. -/
theorem c9_whitespace_like_empty_witness :
    ([' ', '\t'].all Char.isWhitespace = true) ∧
    (nameError [' ', '\t'] = nameError [] ∧
     emailError [' ', '\t'] = emailError [] ∧
     organizationError [' ', '\t'] = organizationError [] ∧
     messageError [' ', '\t'] = messageError []) :=
  ⟨by decide, c9_whitespace_like_empty [' ', '\t'] (by decide)⟩

theorem validateEmail_nil : validateEmail [] = false := by decide

/-- C2: the `errors` memo agrees with the reference validation: name is
`Required` (message "Name is required") exactly on trim-empty input and
`TooShort` exactly on trimmed length < 2; email is `Required` exactly on
trim-empty input and `InvalidFormat` exactly when the trimmed value fails the
regex (so "a@b.co" passes and "invalid-email" fails); organization fails
(`TooShort`) exactly when nonempty with trimmed length < 2; message is
`Required` exactly on trim-empty input and `TooShort` exactly on trimmed
length < 10 (10 trimmed characters pass, 9 fail); `role` has no validator
(no `FieldErrors` entry), so it never fails; and `isValid` holds iff no field
has an error. -/
theorem c2_validation_reference :
    (∀ v : List Char,
       (nameError v = some "Name is required" ↔ jsTrim v = []) ∧
       (nameError v = some "Name must be at least 2 characters" ↔
          jsTrim v ≠ [] ∧ (jsTrim v).length < 2) ∧
       (nameError v = none ↔ 2 ≤ (jsTrim v).length)) ∧
    (∀ v : List Char,
       (emailError v = some "Email is required" ↔ jsTrim v = []) ∧
       (emailError v = some "Please enter a valid email address" ↔
          jsTrim v ≠ [] ∧ validateEmail (jsTrim v) = false) ∧
       (emailError v = none ↔ validateEmail (jsTrim v) = true)) ∧
    (∀ v : List Char,
       (organizationError v = some "Organization must be at least 2 characters" ↔
          jsTrim v ≠ [] ∧ (jsTrim v).length < 2) ∧
       (organizationError v = none ↔ jsTrim v = [] ∨ 2 ≤ (jsTrim v).length)) ∧
    (∀ v : List Char,
       (messageError v = some "Message is required" ↔ jsTrim v = []) ∧
       (messageError v = some "Message must be at least 10 characters" ↔
          jsTrim v ≠ [] ∧ (jsTrim v).length < 10) ∧
       (messageError v = none ↔ 10 ≤ (jsTrim v).length)) ∧
    validateEmail "a@b.co".toList = true ∧
    validateEmail "invalid-email".toList = false ∧
    messageError "abcdefghij".toList = none ∧
    messageError "abcdefghi".toList = some "Message must be at least 10 characters" ∧
    (∀ v : FormValues,
       isValid v = true ↔
         (nameError v.name = none ∧ emailError v.email = none ∧
          organizationError v.organization = none ∧
          messageError v.message = none)) := by
  refine ⟨fun v => ?_, fun v => ?_, fun v => ?_, fun v => ?_,
    by decide, by decide, by decide, by decide, fun v => ?_⟩
  · unfold nameError
    split_ifs with h1 h2 <;>
      simp_all [List.isEmpty_iff, MIN_NAME_LENGTH, List.length_eq_zero]
  · unfold emailError
    split_ifs with h1 h2 <;>
      simp_all [List.isEmpty_iff, validateEmail_nil]
  · unfold organizationError
    split_ifs with h1
    · simp_all [List.isEmpty_iff, MIN_ORGANIZATION_LENGTH, ← List.length_eq_zero]
    · simp_all [List.isEmpty_iff, MIN_ORGANIZATION_LENGTH, ← List.length_eq_zero]
      omega
  · unfold messageError
    split_ifs with h1 h2 <;>
      simp_all [List.isEmpty_iff, MIN_MESSAGE_LENGTH, List.length_eq_zero]
  · simp [isValid, errors, Option.isNone_iff_eq_none, and_assoc]

/-- C2 witness: the characterizations evaluated at concrete inputs — the
valid draft has no errors, and a one-character name is rejected as too
short. -/
theorem c2_validation_reference_witness :
    (isValid validVals = true ↔
       (nameError validVals.name = none ∧ emailError validVals.email = none ∧
        organizationError validVals.organization = none ∧
        messageError validVals.message = none)) ∧
    (nameError "J".toList = some "Name must be at least 2 characters" ↔
       jsTrim "J".toList ≠ [] ∧ (jsTrim "J".toList).length < 2) :=
  ⟨c2_validation_reference.2.2.2.2.2.2.2.2 validVals,
   (c2_validation_reference.1 "J".toList).2.1⟩

end CladForm
